import Mathlib

/-!
Shallow embedding of `src/getaltsclient/client.py` (GetAltsClient).

Python dynamic values appearing in decoded JSON responses are modelled by
`JVal`; a decoded JSON object is an association list `List (String × JVal)`
(first binding wins, like a Python dict built left to right, and lookup by
key). In-place mutation of a caller-owned `ActivationContext` is modelled by
returning the updated record: an operation that raises before any field
assignment leaves the caller's context at its prior value, which in the
functional model corresponds to returning `.error` and producing no updated
record. The aiohttp transport outcome of one request is modelled as an input
`Except Unit (List (String × JVal))`: `.error ()` stands for a
network/timeout/HTTP failure raised by aiohttp before JSON decoding,
`.ok r` for a decoded JSON object `r`.
-/

/-- A decoded JSON value, as far as the client inspects them. -/
inductive JVal where
  | str (s : String)
  | num (n : Int)
  deriving DecidableEq, Repr

/-- Embedding of `d["k"]` / `d.get("k")` on a decoded JSON object. -/
def jlookup (d : List (String × JVal)) (k : String) : Option JVal :=
  (d.find? (fun p => p.1 == k)).map (·.2)

/-- Embedding of `class Service(Enum)` — client.py lines 22–41. -/
inductive Service where
  | Microsoft | Google | GMail | Yahoo | LinkedIN | Uber | WeChat
  | Instagram | LineMessenger | Telegram | VkCom | YouTube | Facebook
  | Steam | Yandex | Whatsapp | Tinder | Twitter | AnyOther
  deriving DecidableEq, Repr, Fintype

/-- Embedding of `Service.value`: the wire code of each member. -/
def Service.value : Service → String
  | .Microsoft => "ms" | .Google => "go" | .GMail => "gm" | .Yahoo => "yh"
  | .LinkedIN => "ln" | .Uber => "ub" | .WeChat => "wc" | .Instagram => "ig"
  | .LineMessenger => "lm" | .Telegram => "tg" | .VkCom => "vk"
  | .YouTube => "yt" | .Facebook => "fb" | .Steam => "st" | .Yandex => "ya"
  | .Whatsapp => "wp" | .Tinder => "ti" | .Twitter => "tw" | .AnyOther => "ot"

/-- The members of `Service` in source order (Python's `list(Service)`). -/
def Service.members : List Service :=
  [.Microsoft, .Google, .GMail, .Yahoo, .LinkedIN, .Uber, .WeChat,
   .Instagram, .LineMessenger, .Telegram, .VkCom, .YouTube, .Facebook,
   .Steam, .Yandex, .Whatsapp, .Tinder, .Twitter, .AnyOther]

/-- Embedding of `Service(s)`: value-based lookup of a Python `Enum`, first member whose
value matches; `none` models the `ValueError` on an unknown wire code. -/
def Service.fromValue (s : String) : Option Service :=
  Service.members.find? (fun m => m.value == s)

/-- Embedding of `class Country(Enum)` — client.py lines 44–91. -/
inductive Country where
  | Russia | Ukraine | Kazakhstan | China | Philippines | Myanmar
  | Indonesia | Malaysia | Kenya | Tanzania | Vietnam | Kyrgyzstan | USA
  | Israel | HongKong | Poland | UnitedKingdom | Madagascar | Congo
  | Nigeria | Macau | Egypt | Ireland | Cambodia | Lao | Haiti
  | IvoryCoast | Gambia | Serbian | Yemen | SouthAfrica | Romania
  | Estonia | Azerbaijan | Canada | Morocco | Ghana | Argentina
  | Uzbekistan | Cameroon | Chad | Germany | Lithuania | Croatia | Iraq
  | Netherlands | India
  deriving DecidableEq, Repr, Fintype

/-- Embedding of `Country.value`: the wire code of each member. -/
def Country.value : Country → String
  | .Russia => "ru" | .Ukraine => "ua" | .Kazakhstan => "kz"
  | .China => "cn" | .Philippines => "ph" | .Myanmar => "mm"
  | .Indonesia => "id" | .Malaysia => "my" | .Kenya => "ke"
  | .Tanzania => "tz" | .Vietnam => "vn" | .Kyrgyzstan => "kg"
  | .USA => "us" | .Israel => "il" | .HongKong => "hk" | .Poland => "pl"
  | .UnitedKingdom => "uk" | .Madagascar => "mg" | .Congo => "cg"
  | .Nigeria => "ng" | .Macau => "mo" | .Egypt => "eg" | .Ireland => "ie"
  | .Cambodia => "kh" | .Lao => "la" | .Haiti => "ht" | .IvoryCoast => "ci"
  | .Gambia => "gm" | .Serbian => "rs" | .Yemen => "ye"
  | .SouthAfrica => "za" | .Romania => "ro" | .Estonia => "ee"
  | .Azerbaijan => "az" | .Canada => "ca" | .Morocco => "ma"
  | .Ghana => "gh" | .Argentina => "ar" | .Uzbekistan => "uz"
  | .Cameroon => "cm" | .Chad => "tg" | .Germany => "de"
  | .Lithuania => "lt" | .Croatia => "hr" | .Iraq => "iq"
  | .Netherlands => "nl" | .India => "in"

/-- The members of `Country` in source order. -/
def Country.members : List Country :=
  [.Russia, .Ukraine, .Kazakhstan, .China, .Philippines, .Myanmar,
   .Indonesia, .Malaysia, .Kenya, .Tanzania, .Vietnam, .Kyrgyzstan, .USA,
   .Israel, .HongKong, .Poland, .UnitedKingdom, .Madagascar, .Congo,
   .Nigeria, .Macau, .Egypt, .Ireland, .Cambodia, .Lao, .Haiti,
   .IvoryCoast, .Gambia, .Serbian, .Yemen, .SouthAfrica, .Romania,
   .Estonia, .Azerbaijan, .Canada, .Morocco, .Ghana, .Argentina,
   .Uzbekistan, .Cameroon, .Chad, .Germany, .Lithuania, .Croatia, .Iraq,
   .Netherlands, .India]

/-- Embedding of `Country(s)`: value-based member lookup. -/
def Country.fromValue (s : String) : Option Country :=
  Country.members.find? (fun m => m.value == s)

/-- Embedding of `class Status(Enum)` — client.py lines 94–105. -/
inductive Status where
  | Ready | AccessReady | WaitingForCode | Cancelled | AccessConfirmGet
  | StatusOk
  deriving DecidableEq, Repr, Fintype

/-- Embedding of `Status.value`: the wire code of each member. -/
def Status.value : Status → String
  | .Ready => "READY"
  | .AccessReady => "ACCESS_READY"
  | .WaitingForCode => "STATUS_WAIT_CODE"
  | .Cancelled => "ACCESS_CANCEL"
  | .AccessConfirmGet => "ACCESS_CONFIRM_GET"
  | .StatusOk => "STATUS_OK"

/-- The members of `Status` in source order. -/
def Status.members : List Status :=
  [.Ready, .AccessReady, .WaitingForCode, .Cancelled, .AccessConfirmGet,
   .StatusOk]

/-- Embedding of `Status(s)`: value-based member lookup. -/
def Status.fromValue (s : String) : Option Status :=
  Status.members.find? (fun m => m.value == s)

/-- Embedding of `class _Action(Enum)` — client.py lines 108–113. -/
inductive _Action where
  | SendSMS | Cancel | End | SendAnotherCode | AlreadyUsed
  deriving DecidableEq, Repr

/-- Embedding of `_Action.value`: the wire code of each action. -/
def _Action.value : _Action → String
  | .SendSMS => "SMS_SENT"
  | .Cancel => "CANCEL"
  | .End => "END"
  | .SendAnotherCode => "ONE_MORE_CODE"
  | .AlreadyUsed => "ALREADY_USED"

/-- Embedding of `@dataclass ActivationContext` — client.py lines 116–121. Fields hold
dynamic JSON values exactly as Python stores them; `code` defaults to
`None`. -/
structure ActivationContext where
  phone_number : JVal
  activation_id : JVal
  status : Status
  code : Option JVal := none
  deriving DecidableEq, Repr

/-- The exceptions the client can raise, plus the error classes it lets
escape: `GetAltsAPIError`, `NoCodeReceived` (client.py 132–137), the
`ValueError` of an `Enum` lookup on an unknown wire code (the spec's
MalformedResponse), a dict `KeyError`, and an aiohttp transport failure. -/
inductive ClientError where
  | apiError (v : JVal)
  | noCodeReceived
  | malformedResponse (v : JVal)
  | keyError (k : String)
  | transportError
  deriving DecidableEq, Repr

/-- Embedding of `d["k"]`, raising `KeyError` when absent. -/
def jget (d : List (String × JVal)) (k : String) : Except ClientError JVal :=
  match jlookup d k with
  | some v => .ok v
  | none => .error (.keyError k)

/-- Embedding of `Status(v)` on a dynamic value: succeeds only when `v` is a string that
is some member's wire code, otherwise `ValueError` (MalformedResponse). -/
def Status.decode (v : JVal) : Except ClientError Status :=
  match v with
  | .str s =>
    match Status.fromValue s with
    | some st => .ok st
    | none => .error (.malformedResponse v)
  | _ => .error (.malformedResponse v)

/-- Embedding of `GetAltsClient._get` — client.py lines 263–281 — after the transport
layer. A transport failure propagates; on a decoded JSON object, a
top-level `"error"` key raises `GetAltsAPIError(result["error"])`, and
otherwise the decoded object is returned unchanged. -/
def _get (wire : Except Unit (List (String × JVal))) :
    Except ClientError (List (String × JVal)) :=
  match wire with
  | .error _ => .error .transportError
  | .ok result =>
    match jlookup result "error" with
    | some v => .error (.apiError v)
    | none => .ok result

/-- Embedding of `ActivationContext._from_dict` — client.py lines 123–129. Reads
`phone_number`, `activation_id`, `Status(data["status"])`; `code` is left
at its default `None`. -/
def ActivationContext._from_dict (data : List (String × JVal)) :
    Except ClientError ActivationContext := do
  let pn ← jget data "phone_number"
  let aid ← jget data "activation_id"
  let sv ← jget data "status"
  let st ← Status.decode sv
  pure { phone_number := pn, activation_id := aid, status := st }

/-- Embedding of `GetAltsClient.__context_from_response` — client.py lines 255–261.
Overwrites `status` from the response and sets `code` to
`response.get("code", None)`, returning the same context. `Status(...)` is
evaluated before either field assignment, so a failed decode leaves the
context untouched (modelled by the `.error` return). -/
def context_from_response (old_context : ActivationContext)
    (response : List (String × JVal)) : Except ClientError ActivationContext := do
  let st ← Status.decode (← jget response "status")
  pure { old_context with status := st, code := jlookup response "code" }

/-- Embedding of `GetAltsClient.get_available_numbers_count` — client.py lines 157–159
— given the transport outcome of the `get_amount` request: the dict
comprehension `{Service(k): v for k, v in response.items()}` decodes every
response key with `Service(k)`, the first unknown wire code raising
`ValueError` (MalformedResponse). -/
def decode_amounts : List (String × JVal) →
    Except ClientError (List (Service × JVal))
  | [] => .ok []
  | (k, v) :: rest =>
    match Service.fromValue k with
    | some sv => (decode_amounts rest).map (fun tail => (sv, v) :: tail)
    | none => .error (.malformedResponse (.str k))

/-- Embedding of `GetAltsClient.get_available_numbers_count` — client.py lines
157–159. -/
def get_available_numbers_count (wire : Except Unit (List (String × JVal))) :
    Except ClientError (List (Service × JVal)) := do
  let response ← _get wire
  decode_amounts response

/-- Embedding of `GetAltsClient.buy_number` — client.py lines 169–173 — given the
transport outcome of the `buy_number` request. -/
def buy_number (wire : Except Unit (List (String × JVal))) :
    Except ClientError ActivationContext := do
  let response ← _get wire
  ActivationContext._from_dict response

/-- Embedding of `GetAltsClient.get_activation_status` — client.py lines 205–212 —
given the transport outcome of the `get_activation_status` request. -/
def get_activation_status (wire : Except Unit (List (String × JVal)))
    (activation_context : ActivationContext) :
    Except ClientError ActivationContext := do
  let response ← _get wire
  context_from_response activation_context response

/-- The query-string `status` parameter `_set_activation_status` sends:
`new_status.value.lower()` — client.py line 221. -/
def set_status_param (new_status : _Action) : String :=
  new_status.value.toLower

/-- Embedding of `GetAltsClient._set_activation_status` — client.py lines 214–224 —
given the transport outcome of the `set_activation_status` request. The
`new_status` action only shapes the outgoing query string
(`set_status_param`); the response handling is the same merge as
`get_activation_status`. -/
def _set_activation_status (wire : Except Unit (List (String × JVal)))
    (activation_context : ActivationContext) (new_status : _Action) :
    Except ClientError ActivationContext :=
  let _sent_status := set_status_param new_status
  do
  let response ← _get wire
  context_from_response activation_context response

/-- Embedding of `GetAltsClient.mark_number_as_already_used` — client.py lines 250–253. -/
def mark_number_as_already_used (wire : Except Unit (List (String × JVal)))
    (activation_context : ActivationContext) :
    Except ClientError ActivationContext :=
  _set_activation_status wire activation_context _Action.AlreadyUsed

/-- Embedding of `GetAltsClient.set_ready_for_code` — client.py lines 239–240. -/
def set_ready_for_code (wire : Except Unit (List (String × JVal)))
    (activation_context : ActivationContext) :
    Except ClientError ActivationContext :=
  _set_activation_status wire activation_context _Action.SendSMS

/-- Embedding of `GetAltsClient.end_activation` — client.py lines 242–243. -/
def end_activation (wire : Except Unit (List (String × JVal)))
    (activation_context : ActivationContext) :
    Except ClientError ActivationContext :=
  _set_activation_status wire activation_context _Action.End

/-- Embedding of `GetAltsClient.send_another_code` — client.py lines 245–248. -/
def send_another_code (wire : Except Unit (List (String × JVal)))
    (activation_context : ActivationContext) :
    Except ClientError ActivationContext :=
  _set_activation_status wire activation_context _Action.SendAnotherCode

/-- Embedding of `GetAltsClient.cancel_activation` — client.py lines 226–237. The
`try` block catches exactly `GetAltsAPIError`; on that error the fallback
`mark_number_as_already_used` runs against its own request (`fallback`
transport outcome) and its result is returned. Every other outcome of the
Cancel attempt — success, transport failure, malformed response — passes
through unchanged. -/
def cancel_activation (wire fallback : Except Unit (List (String × JVal)))
    (activation_context : ActivationContext) :
    Except ClientError ActivationContext :=
  match _set_activation_status wire activation_context _Action.Cancel with
  | .error (.apiError _) => mark_number_as_already_used fallback activation_context
  | r => r

/-- How many times `cancel_activation` invokes the already-used fallback:
1 exactly when the Cancel attempt raised `GetAltsAPIError`, else 0. -/
def cancel_activation_fallback_calls (wire : Except Unit (List (String × JVal)))
    (activation_context : ActivationContext) : Nat :=
  match _set_activation_status wire activation_context _Action.Cancel with
  | .error (.apiError _) => 1
  | _ => 0

/-- Observable trace of one `register_code_received_callback` run: how many
times the loop called `get_activation_status` (polls), how many times it
ran `asyncio.sleep(5)` (sleeps), and the list of arguments the callback
was invoked with (each invocation — synchronous or awaited — appends its
argument). -/
structure AwaitTrace where
  polls : Nat
  sleeps : Nat
  callback_args : List ActivationContext
  deriving DecidableEq, Repr

/-- Outcome of `register_code_received_callback`: normal return after
invoking the callback, an escaping exception, or — since the source loop
is `while True` — still running when the modelling fuel ran out. -/
inductive AwaitOutcome where
  | success (trace : AwaitTrace) (final : ActivationContext)
  | failed (e : ClientError) (trace : AwaitTrace)
  | stillRunning (trace : AwaitTrace)
  deriving DecidableEq, Repr

/-- The `while True` loop of `register_code_received_callback` — client.py
lines 183–197. `wires k` is the transport outcome of the k-th
`get_activation_status` request (0-based); `clock n` is the value returned
by the n-th call to `datetime.now()`, so `clock 0` is `start` (line 182)
and iteration `k` checks `clock (k+1) > clock 0 + max_wait` (line 184).
On each iteration: deadline check first (raising `NoCodeReceived`), then
one poll (whose error aborts the wait), then break-and-invoke-callback
when a code is present, else one 5-second sleep and repeat. `k` counts
completed polls (= completed sleeps) so far. -/
def await_loop (wires : Nat → Except Unit (List (String × JVal)))
    (clock : Nat → Nat) (max_wait : Nat) :
    Nat → Nat → ActivationContext → AwaitOutcome
  | 0, k, _ => .stillRunning ⟨k, k, []⟩
  | fuel + 1, k, context =>
    if clock (k + 1) > clock 0 + max_wait then
      .failed .noCodeReceived ⟨k, k, []⟩
    else
      match get_activation_status (wires k) context with
      | .error e => .failed e ⟨k + 1, k, []⟩
      | .ok context' =>
        if context'.code.isSome then
          .success ⟨k + 1, k, [context']⟩ context'
        else
          await_loop wires clock max_wait fuel (k + 1) context'

/-- Embedding of `GetAltsClient.register_code_received_callback` — client.py lines
175–197. `max_wait` is in seconds (source default `timedelta(minutes=1)`
= 60). The callback is invoked exactly once with the final refreshed
context on the success path, whether it is a plain function or a
coroutine function (both source branches, lines 194–197, perform one
invocation with `context`). -/
def register_code_received_callback
    (wires : Nat → Except Unit (List (String × JVal)))
    (clock : Nat → Nat) (fuel : Nat) (for_context : ActivationContext)
    (max_wait : Nat) : AwaitOutcome :=
  await_loop wires clock max_wait fuel 0 for_context

/-! ## Shared lemmas -/

lemma service_fromValue_value (x : Service) : Service.fromValue x.value = some x := by
  cases x <;> rfl

lemma country_fromValue_value (x : Country) : Country.fromValue x.value = some x := by
  cases x <;> rfl

lemma status_fromValue_value (x : Status) : Status.fromValue x.value = some x := by
  cases x <;> rfl

lemma service_fromValue_eq_none (s : String) (h : ∀ x : Service, x.value ≠ s) :
    Service.fromValue s = none := by
  rw [Service.fromValue, List.find?_eq_none]
  intro x _
  simpa using h x

lemma country_fromValue_eq_none (s : String) (h : ∀ x : Country, x.value ≠ s) :
    Country.fromValue s = none := by
  rw [Country.fromValue, List.find?_eq_none]
  intro x _
  simpa using h x

lemma status_fromValue_eq_none (s : String) (h : ∀ x : Status, x.value ≠ s) :
    Status.fromValue s = none := by
  rw [Status.fromValue, List.find?_eq_none]
  intro x _
  simpa using h x

/-! ## Claims -/

/-- C7: for each of the `Service`, `Country` and `Status` enumerations,
decoding a valid wire code and re-encoding it is the identity
(`fromValue s = some x → x.value = s`), encoding a domain value and
decoding it back is the identity (`fromValue x.value = some x`), and no
two domain values share a wire code (`value` is injective). -/
theorem C7_enum_roundtrip_unique :
    ((∀ x : Service, Service.fromValue x.value = some x)
      ∧ (∀ s x, Service.fromValue s = some x → x.value = s)
      ∧ (∀ a b : Service, a.value = b.value → a = b))
  ∧ ((∀ x : Country, Country.fromValue x.value = some x)
      ∧ (∀ s x, Country.fromValue s = some x → x.value = s)
      ∧ (∀ a b : Country, a.value = b.value → a = b))
  ∧ ((∀ x : Status, Status.fromValue x.value = some x)
      ∧ (∀ s x, Status.fromValue s = some x → x.value = s)
      ∧ (∀ a b : Status, a.value = b.value → a = b)) := by
  refine ⟨⟨service_fromValue_value, ?_, ?_⟩,
          ⟨country_fromValue_value, ?_, ?_⟩,
          ⟨status_fromValue_value, ?_, ?_⟩⟩
  · intro s x h
    rw [Service.fromValue] at h
    have hp := List.find?_some h
    exact eq_of_beq hp
  · intro a b h
    have ha := service_fromValue_value a
    rw [h, service_fromValue_value b] at ha
    exact (Option.some.inj ha).symm
  · intro s x h
    rw [Country.fromValue] at h
    have hp := List.find?_some h
    exact eq_of_beq hp
  · intro a b h
    have ha := country_fromValue_value a
    rw [h, country_fromValue_value b] at ha
    exact (Option.some.inj ha).symm
  · intro s x h
    rw [Status.fromValue] at h
    have hp := List.find?_some h
    exact eq_of_beq hp
  · intro a b h
    have ha := status_fromValue_value a
    rw [h, status_fromValue_value b] at ha
    exact (Option.some.inj ha).symm

/-- Witness for C7 at concrete inputs: decode-then-encode at `"gm"` and
uniqueness applied to `Country.Gambia`. -/
theorem C7_enum_roundtrip_unique_witness :
    Service.GMail.value = "gm" ∧ Country.Gambia = Country.Gambia :=
  ⟨C7_enum_roundtrip_unique.1.2.1 "gm" Service.GMail rfl,
   C7_enum_roundtrip_unique.2.1.2.2 Country.Gambia Country.Gambia rfl⟩

/-- C8: decoding a wire-code string that is not a member value of the
target enumeration fails — `fromValue` returns `none` (Python raises
`ValueError`), `Status.decode` raises MalformedResponse, and an operation
decoding response keys (`get_available_numbers_count`) surfaces
MalformedResponse — never a default member. -/
theorem C8_unknown_wire_code_fails :
    (∀ s, (∀ x : Service, x.value ≠ s) → Service.fromValue s = none)
  ∧ (∀ s, (∀ x : Country, x.value ≠ s) → Country.fromValue s = none)
  ∧ (∀ s, (∀ x : Status, x.value ≠ s) → Status.fromValue s = none)
  ∧ (∀ s, (∀ x : Status, x.value ≠ s) →
      Status.decode (.str s) = .error (.malformedResponse (.str s)))
  ∧ (∀ s v, s ≠ "error" → (∀ x : Service, x.value ≠ s) →
      get_available_numbers_count (.ok [(s, v)]) =
        .error (.malformedResponse (.str s))) := by
  refine ⟨service_fromValue_eq_none, country_fromValue_eq_none,
          status_fromValue_eq_none, ?_, ?_⟩
  · intro s h
    rw [Status.decode, status_fromValue_eq_none s h]
  · intro s v hne h
    rw [get_available_numbers_count]
    have hget : _get (.ok [(s, v)]) = .ok [(s, v)] := by
      rw [_get, jlookup]
      have : (s == "error") = false := beq_eq_false_iff_ne.mpr hne
      simp [List.find?, this]
    rw [hget]
    simp only [bind, Except.bind]
    rw [decode_amounts, service_fromValue_eq_none s h]

/-- Witness for C8 at the concrete unknown wire code `"zz"`. -/
theorem C8_unknown_wire_code_fails_witness :
    Service.fromValue "zz" = none
    ∧ Status.decode (.str "zz") =
        .error (.malformedResponse (.str "zz"))
    ∧ get_available_numbers_count (.ok [("zz", .num 3)]) =
        .error (.malformedResponse (.str "zz")) :=
  ⟨C8_unknown_wire_code_fails.1 "zz" (by decide),
   C8_unknown_wire_code_fails.2.2.2.1 "zz" (by decide),
   C8_unknown_wire_code_fails.2.2.2.2 "zz" (.num 3) (by decide) (by decide)⟩

lemma context_from_response_ok (ctx : ActivationContext)
    (resp : List (String × JVal)) (ctx' : ActivationContext)
    (h : context_from_response ctx resp = .ok ctx') :
    ∃ sv st, jget resp "status" = .ok sv ∧ Status.decode sv = .ok st ∧
      ctx' = { ctx with status := st, code := jlookup resp "code" } := by
  unfold context_from_response at h
  cases hg : jget resp "status" with
  | error e =>
    rw [hg] at h
    simp [bind, Except.bind] at h
  | ok sv =>
    rw [hg] at h
    simp only [bind, Except.bind] at h
    cases hd : Status.decode sv with
    | error e =>
      rw [hd] at h
      simp at h
    | ok st =>
      rw [hd] at h
      simp only [pure, Except.pure, Except.ok.injEq] at h
      exact ⟨sv, st, rfl, hd, h.symm⟩

lemma get_activation_status_frame (wire : Except Unit (List (String × JVal)))
    (ctx ctx' : ActivationContext)
    (h : get_activation_status wire ctx = .ok ctx') :
    ctx'.phone_number = ctx.phone_number
    ∧ ctx'.activation_id = ctx.activation_id
    ∧ ctx' = { ctx with status := ctx'.status, code := ctx'.code } := by
  unfold get_activation_status at h
  cases hw : _get wire with
  | error e =>
    rw [hw] at h
    simp [bind, Except.bind] at h
  | ok resp =>
    rw [hw] at h
    simp only [bind, Except.bind] at h
    obtain ⟨sv, st, _, _, rfl⟩ := context_from_response_ok ctx resp ctx' h
    exact ⟨rfl, rfl, rfl⟩

lemma set_activation_status_frame (wire : Except Unit (List (String × JVal)))
    (ctx ctx' : ActivationContext) (a : _Action)
    (h : _set_activation_status wire ctx a = .ok ctx') :
    ctx'.phone_number = ctx.phone_number
    ∧ ctx'.activation_id = ctx.activation_id
    ∧ ctx' = { ctx with status := ctx'.status, code := ctx'.code } := by
  unfold _set_activation_status at h
  cases hw : _get wire with
  | error e =>
    rw [hw] at h
    simp [bind, Except.bind] at h
  | ok resp =>
    rw [hw] at h
    simp only [bind, Except.bind] at h
    obtain ⟨sv, st, _, _, rfl⟩ := context_from_response_ok ctx resp ctx' h
    exact ⟨rfl, rfl, rfl⟩

/-- C9: on every successful merge of a status/refresh response
(`__context_from_response`), the context's `status` is overwritten with
the decoded response status, and its `code` becomes exactly
`response.get("code", None)`: the response's code when the key is
present, `None` when absent — regardless of any code the context held
before. -/
theorem C9_status_code_overwrite (ctx : ActivationContext)
    (resp : List (String × JVal)) (ctx' : ActivationContext)
    (h : context_from_response ctx resp = .ok ctx') :
    (∃ sv, jget resp "status" = .ok sv ∧ Status.decode sv = .ok ctx'.status)
    ∧ ctx'.code = jlookup resp "code" := by
  obtain ⟨sv, st, h1, h2, rfl⟩ := context_from_response_ok ctx resp ctx' h
  exact ⟨⟨sv, h1, h2⟩, rfl⟩

/-- Witness for C9: a context already holding code 99 merged with a
response that has a status but no `"code"` key ends with `code = None`. -/
theorem C9_status_code_overwrite_witness :
    (∃ sv, jget [("status", JVal.str "STATUS_OK")] "status" = .ok sv ∧
        Status.decode sv = .ok Status.StatusOk)
    ∧ (none : Option JVal) = jlookup [("status", JVal.str "STATUS_OK")] "code" :=
  C9_status_code_overwrite
    ⟨.str "+79001234567", .num 42, .Ready, some (.num 99)⟩
    [("status", JVal.str "STATUS_OK")]
    ⟨.str "+79001234567", .num 42, .StatusOk, none⟩
    rfl

/-- C4: every successful `get_activation_status` / `_set_activation_status`
(and each of its four named wrappers) returns the given context updated
only in `status` and `code`: `phone_number` and `activation_id` are
unchanged, and the result is the same context record apart from those two
fields (the functional rendering of the in-place "same identity"
contract). -/
theorem C4_refresh_setstatus_frame (wire : Except Unit (List (String × JVal)))
    (ctx ctx' : ActivationContext) (a : _Action) :
    (get_activation_status wire ctx = .ok ctx' →
        ctx'.phone_number = ctx.phone_number
        ∧ ctx'.activation_id = ctx.activation_id
        ∧ ctx' = { ctx with status := ctx'.status, code := ctx'.code })
  ∧ (_set_activation_status wire ctx a = .ok ctx' →
        ctx'.phone_number = ctx.phone_number
        ∧ ctx'.activation_id = ctx.activation_id
        ∧ ctx' = { ctx with status := ctx'.status, code := ctx'.code })
  ∧ (set_ready_for_code wire ctx = .ok ctx' →
        ctx'.phone_number = ctx.phone_number
        ∧ ctx'.activation_id = ctx.activation_id
        ∧ ctx' = { ctx with status := ctx'.status, code := ctx'.code })
  ∧ (end_activation wire ctx = .ok ctx' →
        ctx'.phone_number = ctx.phone_number
        ∧ ctx'.activation_id = ctx.activation_id
        ∧ ctx' = { ctx with status := ctx'.status, code := ctx'.code })
  ∧ (send_another_code wire ctx = .ok ctx' →
        ctx'.phone_number = ctx.phone_number
        ∧ ctx'.activation_id = ctx.activation_id
        ∧ ctx' = { ctx with status := ctx'.status, code := ctx'.code })
  ∧ (mark_number_as_already_used wire ctx = .ok ctx' →
        ctx'.phone_number = ctx.phone_number
        ∧ ctx'.activation_id = ctx.activation_id
        ∧ ctx' = { ctx with status := ctx'.status, code := ctx'.code }) :=
  ⟨get_activation_status_frame wire ctx ctx',
   set_activation_status_frame wire ctx ctx' a,
   set_activation_status_frame wire ctx ctx' _Action.SendSMS,
   set_activation_status_frame wire ctx ctx' _Action.End,
   set_activation_status_frame wire ctx ctx' _Action.SendAnotherCode,
   set_activation_status_frame wire ctx ctx' _Action.AlreadyUsed⟩

/-- Witness for C4: a concrete refresh response updates status and code
but keeps phone number and activation id. -/
theorem C4_refresh_setstatus_frame_witness :
    (JVal.str "+79001234567" = JVal.str "+79001234567")
    ∧ (JVal.num 42 = JVal.num 42)
    ∧ ((⟨.str "+79001234567", .num 42, .StatusOk, some (.num 7)⟩ : ActivationContext) =
        { (⟨.str "+79001234567", .num 42, .Ready, none⟩ : ActivationContext) with
            status := Status.StatusOk, code := some (.num 7) }) :=
  (C4_refresh_setstatus_frame
    (.ok [("status", JVal.str "STATUS_OK"), ("code", JVal.num 7)])
    ⟨.str "+79001234567", .num 42, .Ready, none⟩
    ⟨.str "+79001234567", .num 42, .StatusOk, some (.num 7)⟩
    _Action.SendSMS).1 rfl

/-- C6: a decoded response with a top-level `"error"` key makes the call
raise `GetAltsAPIError` carrying exactly the remote-supplied error value;
`get_activation_status` and `_set_activation_status` then surface that
error before any context merge, so the caller's context keeps its prior
`status`/`code` (no updated context is produced); a response without the
key is returned by `_get` unchanged. -/
theorem C6_error_envelope (result : List (String × JVal)) :
    (∀ v, jlookup result "error" = some v →
        _get (.ok result) = .error (.apiError v)
        ∧ (∀ ctx : ActivationContext,
            get_activation_status (.ok result) ctx = .error (.apiError v))
        ∧ (∀ (ctx : ActivationContext) (a : _Action),
            _set_activation_status (.ok result) ctx a = .error (.apiError v)))
  ∧ (jlookup result "error" = none → _get (.ok result) = .ok result) := by
  constructor
  · intro v hv
    have hg : _get (.ok result) = .error (.apiError v) := by
      show (match jlookup result "error" with
            | some v => (.error (.apiError v) : Except ClientError (List (String × JVal)))
            | none => .ok result) = _
      rw [hv]
    refine ⟨hg, ?_, ?_⟩
    · intro ctx
      show (_get (.ok result) >>= fun r => context_from_response ctx r) = _
      rw [hg]
      rfl
    · intro ctx a
      show (_get (.ok result) >>= fun r => context_from_response ctx r) = _
      rw [hg]
      rfl
  · intro hv
    show (match jlookup result "error" with
          | some v => (.error (.apiError v) : Except ClientError (List (String × JVal)))
          | none => .ok result) = _
    rw [hv]

/-- Witness for C6: the mocked response `{"error": "NO_BALANCE"}` makes
`_get` and a status refresh raise `GetAltsAPIError("NO_BALANCE")`. -/
theorem C6_error_envelope_witness :
    _get (.ok [("error", JVal.str "NO_BALANCE")]) =
      .error (.apiError (.str "NO_BALANCE"))
    ∧ get_activation_status (.ok [("error", JVal.str "NO_BALANCE")])
        ⟨.str "+79001234567", .num 42, .Ready, none⟩ =
      .error (.apiError (.str "NO_BALANCE")) :=
  ⟨((C6_error_envelope [("error", JVal.str "NO_BALANCE")]).1
      (.str "NO_BALANCE") rfl).1,
   ((C6_error_envelope [("error", JVal.str "NO_BALANCE")]).1
      (.str "NO_BALANCE") rfl).2.1
      ⟨.str "+79001234567", .num 42, .Ready, none⟩⟩

/-- C3: `cancel_activation` first attempts setStatus(Cancel); exactly when
that attempt fails with `GetAltsAPIError` it invokes the already-used
operation once and returns its result; when the Cancel attempt succeeds
the already-used operation is never invoked and the success passes
through; a transport-class failure propagates uncaught (fallback count
0). -/
theorem C3_cancel_fallback (wire fallback : Except Unit (List (String × JVal)))
    (ctx : ActivationContext) :
    (∀ v, _set_activation_status wire ctx _Action.Cancel = .error (.apiError v) →
        cancel_activation wire fallback ctx = mark_number_as_already_used fallback ctx
        ∧ cancel_activation_fallback_calls wire ctx = 1)
  ∧ (∀ ctx', _set_activation_status wire ctx _Action.Cancel = .ok ctx' →
        cancel_activation wire fallback ctx = .ok ctx'
        ∧ cancel_activation_fallback_calls wire ctx = 0)
  ∧ (_set_activation_status wire ctx _Action.Cancel = .error .transportError →
        cancel_activation wire fallback ctx = .error .transportError
        ∧ cancel_activation_fallback_calls wire ctx = 0) := by
  refine ⟨?_, ?_, ?_⟩
  · intro v h
    unfold cancel_activation cancel_activation_fallback_calls
    rw [h]
    exact ⟨rfl, rfl⟩
  · intro ctx' h
    unfold cancel_activation cancel_activation_fallback_calls
    rw [h]
    exact ⟨rfl, rfl⟩
  · intro h
    unfold cancel_activation cancel_activation_fallback_calls
    rw [h]
    exact ⟨rfl, rfl⟩

/-- Witness for C3: a Cancel attempt rejected by the service (mocked
`{"error": "EARLY_CANCEL_DENIED"}`) routes `cancel_activation` to the
already-used fallback exactly once. -/
theorem C3_cancel_fallback_witness :
    cancel_activation (.ok [("error", JVal.str "EARLY_CANCEL_DENIED")])
        (.ok [("status", JVal.str "ACCESS_CANCEL")])
        ⟨.str "+79001234567", .num 42, .Ready, none⟩ =
      mark_number_as_already_used (.ok [("status", JVal.str "ACCESS_CANCEL")])
        ⟨.str "+79001234567", .num 42, .Ready, none⟩
    ∧ cancel_activation_fallback_calls
        (.ok [("error", JVal.str "EARLY_CANCEL_DENIED")])
        ⟨.str "+79001234567", .num 42, .Ready, none⟩ = 1 :=
  (C3_cancel_fallback (.ok [("error", JVal.str "EARLY_CANCEL_DENIED")])
      (.ok [("status", JVal.str "ACCESS_CANCEL")])
      ⟨.str "+79001234567", .num 42, .Ready, none⟩).1
    (.str "EARLY_CANCEL_DENIED") rfl

lemma from_dict_ok (data : List (String × JVal)) (ctx' : ActivationContext)
    (h : ActivationContext._from_dict data = .ok ctx') :
    ∃ pn aid sv st,
      jget data "phone_number" = .ok pn
      ∧ jget data "activation_id" = .ok aid
      ∧ jget data "status" = .ok sv
      ∧ Status.decode sv = .ok st
      ∧ ctx' = ⟨pn, aid, st, none⟩ := by
  unfold ActivationContext._from_dict at h
  cases h1 : jget data "phone_number" with
  | error e => rw [h1] at h; simp [bind, Except.bind] at h
  | ok pn =>
    rw [h1] at h
    simp only [bind, Except.bind] at h
    cases h2 : jget data "activation_id" with
    | error e => rw [h2] at h; simp [bind, Except.bind] at h
    | ok aid =>
      rw [h2] at h
      simp only [bind, Except.bind] at h
      cases h3 : jget data "status" with
      | error e => rw [h3] at h; simp [bind, Except.bind] at h
      | ok sv =>
        rw [h3] at h
        simp only [bind, Except.bind] at h
        cases h4 : Status.decode sv with
        | error e => rw [h4] at h; simp at h
        | ok st =>
          rw [h4] at h
          simp only [pure, Except.pure, Except.ok.injEq] at h
          exact ⟨pn, aid, sv, st, rfl, rfl, rfl, h4, h.symm⟩

/-- Counterexample to C5 as stated: a successful purchase response whose
`status` field is `"STATUS_OK"` yields a context whose status is
`StatusOk`, not `Ready` — `buy_number` decodes the status from the
response rather than always producing `Ready`. -/
theorem C5_counterexample :
    buy_number (.ok [("phone_number", JVal.str "+79001234567"),
        ("activation_id", JVal.num 42), ("status", JVal.str "STATUS_OK")]) =
      .ok ⟨.str "+79001234567", .num 42, Status.StatusOk, none⟩
    ∧ Status.StatusOk ≠ Status.Ready :=
  ⟨rfl, by decide⟩

/-- C5 (amended): for every successful purchase response, `buy_number`
returns a fresh context whose `phone_number` and `activation_id` come
from the response, whose `status` is the decoding of the response's
`status` field (so `Ready` whenever the response reports `"READY"`, as in
the spec's scenario), and whose `code` is absent. -/
theorem C5_buy_number_fresh_context (wire : Except Unit (List (String × JVal)))
    (resp : List (String × JVal)) (ctx' : ActivationContext)
    (hw : _get wire = .ok resp) (h : buy_number wire = .ok ctx') :
    jget resp "phone_number" = .ok ctx'.phone_number
    ∧ jget resp "activation_id" = .ok ctx'.activation_id
    ∧ (∃ sv, jget resp "status" = .ok sv ∧ Status.decode sv = .ok ctx'.status)
    ∧ (jget resp "status" = .ok (.str "READY") → ctx'.status = Status.Ready)
    ∧ ctx'.code = none := by
  unfold buy_number at h
  rw [hw] at h
  simp only [bind, Except.bind] at h
  obtain ⟨pn, aid, sv, st, h1, h2, h3, h4, rfl⟩ := from_dict_ok resp ctx' h
  refine ⟨h1, h2, ⟨sv, h3, h4⟩, ?_, rfl⟩
  intro hr
  rw [h3] at hr
  cases hr
  cases h4
  rfl

/-- Witness for C5 (amended) at the spec's scenario response
`{"phone_number": "+7900...", "activation_id": 42, "status": "READY"}`. -/
theorem C5_buy_number_fresh_context_witness :
    jget [("phone_number", JVal.str "+79001234567"),
        ("activation_id", JVal.num 42), ("status", JVal.str "READY")]
      "phone_number" = .ok (JVal.str "+79001234567")
    ∧ jget [("phone_number", JVal.str "+79001234567"),
        ("activation_id", JVal.num 42), ("status", JVal.str "READY")]
      "activation_id" = .ok (JVal.num 42)
    ∧ (∃ sv, jget [("phone_number", JVal.str "+79001234567"),
          ("activation_id", JVal.num 42), ("status", JVal.str "READY")]
        "status" = .ok sv ∧ Status.decode sv = .ok Status.Ready)
    ∧ (jget [("phone_number", JVal.str "+79001234567"),
          ("activation_id", JVal.num 42), ("status", JVal.str "READY")]
        "status" = .ok (.str "READY") → Status.Ready = Status.Ready)
    ∧ (none : Option JVal) = none :=
  C5_buy_number_fresh_context
    (.ok [("phone_number", JVal.str "+79001234567"),
        ("activation_id", JVal.num 42), ("status", JVal.str "READY")])
    [("phone_number", JVal.str "+79001234567"),
        ("activation_id", JVal.num 42), ("status", JVal.str "READY")]
    ⟨.str "+79001234567", .num 42, Status.Ready, none⟩
    rfl rfl

/-- C10: `buy_number` ignores any `"code"` field of the purchase response
— `_from_dict` never reads it — so every successfully returned context
has `code = None`. -/
theorem C10_buy_number_code_absent (wire : Except Unit (List (String × JVal)))
    (ctx' : ActivationContext) (h : buy_number wire = .ok ctx') :
    ctx'.code = none := by
  unfold buy_number at h
  cases hw : _get wire with
  | error e =>
    rw [hw] at h
    simp [bind, Except.bind] at h
  | ok resp =>
    rw [hw] at h
    simp only [bind, Except.bind] at h
    obtain ⟨pn, aid, sv, st, _, _, _, _, rfl⟩ := from_dict_ok resp ctx' h
    rfl

/-- Witness for C10: a purchase response that does contain a `"code"` key
still yields a context with `code = None`. -/
theorem C10_buy_number_code_absent_witness :
    (⟨.str "+79001234567", .num 42, Status.Ready, none⟩ : ActivationContext).code
      = none :=
  C10_buy_number_code_absent
    (.ok [("phone_number", JVal.str "+79001234567"),
        ("activation_id", JVal.num 42), ("status", JVal.str "READY"),
        ("code", JVal.num 1234)])
    ⟨.str "+79001234567", .num 42, Status.Ready, none⟩
    rfl

lemma await_loop_step (wires : Nat → Except Unit (List (String × JVal)))
    (clock : Nat → Nat) (mw f k : Nat) (c : ActivationContext)
    (hc : ¬ clock (k + 1) > clock 0 + mw) :
    await_loop wires clock mw (f + 1) k c =
      match get_activation_status (wires k) c with
      | .error e => .failed e ⟨k + 1, k, []⟩
      | .ok c' =>
        if c'.code.isSome then .success ⟨k + 1, k, [c']⟩ c'
        else await_loop wires clock mw f (k + 1) c' := by
  rw [await_loop]
  rw [if_neg hc]

/-- Mocked refresh transport sequence for the spec scenario
[no-code, no-code, code-present]: polls 0 and 1 answer with a waiting
status and no `"code"` key, poll 2 answers with a code. -/
def c1_wires : Nat → Except Unit (List (String × JVal))
  | 0 => .ok [("status", JVal.str "STATUS_WAIT_CODE")]
  | 1 => .ok [("status", JVal.str "STATUS_WAIT_CODE")]
  | _ => .ok [("status", JVal.str "STATUS_OK"), ("code", JVal.num 1234)]

lemma c1_poll0 (ctx : ActivationContext) :
    get_activation_status (c1_wires 0) ctx =
      .ok { ctx with status := Status.WaitingForCode, code := none } := rfl

lemma c1_poll1 (ctx : ActivationContext) :
    get_activation_status (c1_wires 1) ctx =
      .ok { ctx with status := Status.WaitingForCode, code := none } := rfl

lemma c1_poll2 (ctx : ActivationContext) :
    get_activation_status (c1_wires 2) ctx =
      .ok { ctx with status := Status.StatusOk, code := some (JVal.num 1234) } := rfl

/-- C1: with the mocked refresh sequence [no-code, no-code, code-present]
and a wall clock that stays within the 60-second default budget at the
three deadline checks, `register_code_received_callback` polls exactly 3
times, sleeps exactly 2 times, invokes the callback exactly once with the
final refreshed context, and returns normally. -/
theorem C1_three_polls_two_sleeps (clock : Nat → Nat) (ctx : ActivationContext)
    (fuel : Nat)
    (h1 : clock 1 ≤ clock 0 + 60) (h2 : clock 2 ≤ clock 0 + 60)
    (h3 : clock 3 ≤ clock 0 + 60) (hfuel : 3 ≤ fuel) :
    register_code_received_callback c1_wires clock fuel ctx 60 =
      .success
        ⟨3, 2, [{ ctx with status := Status.StatusOk, code := some (JVal.num 1234) }]⟩
        { ctx with status := Status.StatusOk, code := some (JVal.num 1234) } := by
  obtain ⟨f, rfl⟩ : ∃ f, fuel = f + 3 := ⟨fuel - 3, by omega⟩
  unfold register_code_received_callback
  have e1 : await_loop c1_wires clock 60 (f + 2 + 1) 0 ctx
      = await_loop c1_wires clock 60 (f + 2) 1
          { ctx with status := Status.WaitingForCode, code := none } := by
    rw [await_loop_step c1_wires clock 60 (f + 2) 0 ctx (not_lt.mpr h1),
      c1_poll0]
    rfl
  have e2 : await_loop c1_wires clock 60 (f + 2) 1
        { ctx with status := Status.WaitingForCode, code := none }
      = await_loop c1_wires clock 60 (f + 1) 2
          { ctx with status := Status.WaitingForCode, code := none } := by
    rw [show f + 2 = f + 1 + 1 from rfl,
      await_loop_step c1_wires clock 60 (f + 1) 1
        { ctx with status := Status.WaitingForCode, code := none }
        (not_lt.mpr h2),
      c1_poll1]
    rfl
  have e3 : await_loop c1_wires clock 60 (f + 1) 2
        { ctx with status := Status.WaitingForCode, code := none }
      = .success
          ⟨3, 2, [{ ctx with status := Status.StatusOk, code := some (JVal.num 1234) }]⟩
          { ctx with status := Status.StatusOk, code := some (JVal.num 1234) } := by
    rw [await_loop_step c1_wires clock 60 f 2
        { ctx with status := Status.WaitingForCode, code := none }
        (not_lt.mpr h3),
      c1_poll2]
    rfl
  rw [show f + 3 = f + 2 + 1 from rfl]
  exact e1.trans (e2.trans e3)

/-- Witness for C1 with a constant clock, 3 units of fuel and a concrete
starting context. -/
theorem C1_three_polls_two_sleeps_witness :
    register_code_received_callback c1_wires (fun _ => 0) 3
        ⟨.str "+79001234567", .num 42, .Ready, none⟩ 60 =
      .success
        ⟨3, 2, [⟨.str "+79001234567", .num 42, .StatusOk, some (.num 1234)⟩]⟩
        ⟨.str "+79001234567", .num 42, .StatusOk, some (.num 1234)⟩ :=
  C1_three_polls_two_sleeps (fun _ => 0)
    ⟨.str "+79001234567", .num 42, .Ready, none⟩ 3
    (by decide) (by decide) (by decide) (by decide)

/-- C2: with `max_wait = 0` and a wall clock that has strictly advanced by
the first deadline check (`datetime.now()` after `start`), the wait fails
with `NoCodeReceived` on that first check — zero polls (refresh is never
called, whatever the transport sequence would answer, including one that
never reports a code) and zero sleeps. -/
theorem C2_zero_max_wait (wires : Nat → Except Unit (List (String × JVal)))
    (clock : Nat → Nat) (ctx : ActivationContext) (fuel : Nat)
    (hfuel : 1 ≤ fuel) (hclk : clock 0 < clock 1) :
    register_code_received_callback wires clock fuel ctx 0 =
      .failed ClientError.noCodeReceived ⟨0, 0, []⟩ := by
  obtain ⟨f, rfl⟩ : ∃ f, fuel = f + 1 := ⟨fuel - 1, by omega⟩
  unfold register_code_received_callback
  rw [await_loop]
  rw [if_pos (by simpa using hclk)]

/-- Witness for C2: a strictly increasing clock, one unit of fuel, a
transport sequence that never reports a code. -/
theorem C2_zero_max_wait_witness :
    register_code_received_callback
        (fun _ => .ok [("status", JVal.str "STATUS_WAIT_CODE")]) (fun n => n) 1
        ⟨.str "+79001234567", .num 42, .Ready, none⟩ 0 =
      .failed ClientError.noCodeReceived ⟨0, 0, []⟩ :=
  C2_zero_max_wait (fun _ => .ok [("status", JVal.str "STATUS_WAIT_CODE")])
    (fun n => n) ⟨.str "+79001234567", .num 42, .Ready, none⟩ 1
    (by decide) (by decide)
